import Mathlib

/-! Formal model of the gg-shuffle repository (gg-shuffle.py): the video-id and
url helpers, the session navigation state (shuffle history and previous
navigation), and the thumbnail disk cache with its download fallback.
Definitions are shallow embeddings of the Python functions of the same names;
theorems check the specification claims against them. -/

namespace GGShuffle

/-! Video-id extraction (gg-shuffle.py, extract_video_id and scrape_videos).
Strings are modelled as lists of characters so that the splitting done by
url.split("watch?v=") and .split("&") can be reasoned about. -/

/-- Character list of the separator literal "watch?v=". -/
def watchSepL : List Char := ['w', 'a', 't', 'c', 'h', '?', 'v', '=']

/-- Model of the Python substring test: true iff "watch?v=" occurs contiguously
in url. -/
def containsWatch : List Char → Bool
  | [] => false
  | c :: rest => watchSepL.isPrefixOf (c :: rest) || containsWatch rest

/-- Model of Python url.split("watch?v="): leftmost, non-overlapping splitting,
with an accumulator holding the current piece reversed. -/
def splitWatch (acc : List Char) : List Char → List (List Char)
  | 'w' :: 'a' :: 't' :: 'c' :: 'h' :: '?' :: 'v' :: '=' :: rest => acc.reverse :: splitWatch [] rest
  | c :: rest => splitWatch (c :: acc) rest
  | [] => [acc.reverse]

/-- Model of Python s.split("&"). -/
def splitAmp (acc : List Char) : List Char → List (List Char)
  | [] => [acc.reverse]
  | c :: rest => if c = '&' then acc.reverse :: splitAmp [] rest else splitAmp (c :: acc) rest

/-- Model of extract_video_id (gg-shuffle.py lines 121-124): if "watch?v=" is in
the url, return url.split("watch?v=")[-1].split("&")[0], else the empty string.
A split result is never empty, so [-1] is the last element and [0] the head. -/
def extract_video_id (url : List Char) : List Char :=
  if containsWatch url then
    ((splitAmp [] ((splitWatch [] url).getLastD [])).headD [])
  else []

/-- Character list of "https://www.youtube.com/". -/
def siteHead : List Char :=
  ['h','t','t','p','s',':','/','/','w','w','w','.','y','o','u','t','u','b','e','.','c','o','m','/']

/-- Model of the url built by scrape_videos (gg-shuffle.py line 74):
"https://www.youtube.com/watch?v=" followed by the video id. -/
def watch_url_for (vid : List Char) : List Char := siteHead ++ watchSepL ++ vid

/-- String-level wrapper of extract_video_id, used by the navigation model. -/
def extract_video_id_str (url : String) : String := String.mk (extract_video_id url.toList)

/-! Session navigation state (gg-shuffle.py, GGWindow.load_random and
GGWindow.on_previous). -/

/-- Result tuple of fetch_random and of the on_previous database lookup:
(title, url, description, view_count, duration, upload_date). -/
structure Fetched where
  title : String
  url : String
  description : String
  view_count : Nat
  duration : Nat
  upload_date : String
deriving DecidableEq

/-- One row of the videos table (gg-shuffle.py scrape_videos schema). -/
structure VideoRow where
  id : String
  title : String
  url : String
  description : String
  view_count : Nat
  duration : Nat
  upload_date : String
deriving DecidableEq

/-- Model of fetch_random (gg-shuffle.py lines 111-118): SELECT ... ORDER BY
RANDOM() LIMIT 1 returns an arbitrary row when the table is non-empty (the
random choice is modelled by the index pick), and no row when it is empty, in
which case the function returns the sentinel ("Unknown", "", "", 0, 0, ""). -/
def fetch_random (catalog : List VideoRow) (pick : Nat) : Fetched :=
  match catalog.get? (pick % catalog.length) with
  | some r => ⟨r.title, r.url, r.description, r.view_count, r.duration, r.upload_date⟩
  | none => ⟨"Unknown", "", "", 0, 0, ""⟩

/-- Navigation-relevant state of GGWindow: current title, url and video id, and
the previous_video_ids stack (most recent last, as with Python list append). -/
structure NavState where
  current_title : String
  current_url : String
  current_video_id : String
  previous_video_ids : List String
deriving DecidableEq

/-- Initial state set in GGWindow.__init__ : empty current fields, empty
history. -/
def initState : NavState := ⟨"", "", "", []⟩

/-- Model of the history push in load_random (gg-shuffle.py lines 649-654):
append the id, then if the length exceeds 50 keep only the last 50 entries
(Python slice [-50:]). -/
def pushHistory (hist : List String) (vid : String) : List String :=
  if 50 < (hist ++ [vid]).length then
    (hist ++ [vid]).drop ((hist ++ [vid]).length - 50)
  else hist ++ [vid]

/-- State transition of load_random (gg-shuffle.py lines 642-713) given the
record produced by fetch_random: push the old current id onto the history when
it is non-empty, then overwrite the current title, url and id (the id derived
from the fetched url via extract_video_id). -/
def load_random_step (st : NavState) (f : Fetched) : NavState :=
  { current_title := f.title
    current_url := f.url
    current_video_id := extract_video_id_str f.url
    previous_video_ids :=
      if st.current_video_id ≠ "" then pushHistory st.previous_video_ids st.current_video_id
      else st.previous_video_ids }

/-- Observable outcome of on_previous: the new state, the record applied to the
display (none when nothing was applied), and the status-bar message pushed by
_set_status (none when no message was pushed). The except-branch of the Python
code fires only on a raised exception; a lookup that finds no row is not an
exception and reaches no _set_status call. -/
structure PrevOutcome where
  state : NavState
  returned : Option Fetched
  status : Option String
deriving DecidableEq

/-- Model of on_previous (gg-shuffle.py lines 715-790): on empty history do
nothing; otherwise pop the most recent id (Python list.pop), look it up in the
database (modelled by the injected lookup function), and only when a row is
found update the current fields. When the lookup finds nothing the popped id is
gone from the history, the current fields stay, and no status is pushed. -/
def on_previous (st : NavState) (lookup : String → Option Fetched) : PrevOutcome :=
  match st.previous_video_ids.getLast? with
  | none => ⟨st, none, none⟩
  | some pvid =>
    match lookup pvid with
    | none => ⟨{ st with previous_video_ids := st.previous_video_ids.dropLast }, none, none⟩
    | some r =>
      ⟨{ current_title := r.title
         current_url := r.url
         current_video_id := pvid
         previous_video_ids := st.previous_video_ids.dropLast }, some r, none⟩

/-- A navigation event: a shuffle (with the record fetch_random produced) or a
previous click (with the database lookup in effect at that moment). -/
inductive NavOp where
  | shuffle (f : Fetched)
  | previous (lookup : String → Option Fetched)

/-- Apply one navigation event to the state. -/
def applyOp (st : NavState) : NavOp → NavState
  | NavOp.shuffle f => load_random_step st f
  | NavOp.previous lk => (on_previous st lk).state

/-- Run a sequence of navigation events from a state. -/
def runOps (st : NavState) (ops : List NavOp) : NavState := ops.foldl applyOp st

/-! Thumbnail cache manager (gg-shuffle.py lines 127-212). Image dimensions and
timestamps are modelled as rationals; the filesystem and network are modelled,
for the single cache key at hand, by an explicit environment. -/

/-- Raw image bytes, abstracted to what the decoder yields on them: the decoded
width and height, or none when the decoder raises on them (corrupt data). -/
structure ByteData where
  decodesTo : Option (ℚ × ℚ)
deriving DecidableEq

/-- The cache file for one key: its mtime (epoch seconds) and its content. -/
structure CacheFile where
  mtime : ℤ
  content : ByteData
deriving DecidableEq

/-- Environment of one thumbnail resolution: the cache file for the key (none
when absent), the current clock in epoch seconds, and what the network returns
for the thumbnail url (none when urlopen raises, e.g. a timeout or network
error). -/
structure Env where
  cache : Option CacheFile
  now : ℤ
  fetchResult : Option ByteData
deriving DecidableEq

/-- CACHE_MAX_AGE_DAYS = 30 (gg-shuffle.py line 22). -/
def CACHE_MAX_AGE_DAYS : ℚ := 30

/-- Model of is_cache_valid (gg-shuffle.py lines 143-149): the file exists and
its age in days, (now - mtime) / (24 * 3600), is strictly below 30. -/
def is_cache_valid (env : Env) : Bool :=
  match env.cache with
  | none => false
  | some f => decide (((env.now - f.mtime : ℤ) : ℚ) / (24 * 3600) < CACHE_MAX_AGE_DAYS)

/-- Model of GdkPixbuf.Pixbuf.new_from_file_at_scale(path, 320, 180, True):
scale the decoded dimensions by the common factor min (320/w) (180/h), which
fits the image in 320 by 180 while preserving the aspect ratio. -/
def new_from_file_at_scale (w h : ℚ) : ℚ × ℚ :=
  (w * min (320 / w) (180 / h), h * min (320 / w) (180 / h))

/-- Model of load_pixbuf_from_cache (gg-shuffle.py lines 152-165): empty id or
invalid cache give none; a valid cache file is decoded at scale 320x180 with
aspect preserved; a decode failure deletes the corrupt file (unlink) and gives
none. Returns the pixbuf (or none) and the environment after any deletion. -/
def load_pixbuf_from_cache (video_id : String) (env : Env) : Option (ℚ × ℚ) × Env :=
  if video_id = "" then (none, env)
  else
    match env.cache, is_cache_valid env with
    | some f, true =>
      (match f.content.decodesTo with
       | some (w, h) => (some (new_from_file_at_scale w h), env)
       | none => (none, { env with cache := none }))
    | _, _ => (none, env)

/-- Model of thumbnail_url (gg-shuffle.py lines 127-128). -/
def thumbnail_url (video_id : String) : String :=
  if video_id = "" then "" else "https://img.youtube.com/vi/" ++ video_id ++ "/hqdefault.jpg"

/-- Model of download_and_cache_thumbnail (gg-shuffle.py lines 168-192): guard
on empty url or id; a fetch failure raises, is caught, deletes any cache file
for the key and returns none; on fetch success the bytes are written to the
cache path (overwriting, mtime = now); a decode failure then raises, is caught,
deletes the file and returns none; on decode success the pixbuf is returned,
scaled by scale_simple to exactly 320x180 when either dimension exceeds the
display size. No failure escapes: every branch returns a value. -/
def download_and_cache_thumbnail (video_id url : String) (env : Env) : Option (ℚ × ℚ) × Env :=
  if url = "" ∨ video_id = "" then (none, env)
  else
    match env.fetchResult with
    | none => (none, { env with cache := none })
    | some data =>
      match data.decodesTo with
      | none => (none, { env with cache := none })
      | some (w, h) =>
        if 320 < w ∨ 180 < h then (some (320, 180), { env with cache := some ⟨env.now, data⟩ })
        else (some (w, h), { env with cache := some ⟨env.now, data⟩ })

/-- Model of the worker body of load_thumbnail_async (gg-shuffle.py lines
195-212): try the cache first; on a hit deliver it, otherwise download and
cache. The final component counts network requests (urlopen calls): zero on a
cache hit or when the guard of download_and_cache_thumbnail rejects, one
otherwise. An empty id never reaches the network since its thumbnail_url is
empty. -/
def load_thumbnail_worker (video_id : String) (env : Env) : Option (ℚ × ℚ) × Env × Nat :=
  match load_pixbuf_from_cache video_id env with
  | (some pb, env1) => (some pb, env1, 0)
  | (none, env1) =>
    ((download_and_cache_thumbnail video_id (thumbnail_url video_id) env1).1,
     (download_and_cache_thumbnail video_id (thumbnail_url video_id) env1).2,
     if thumbnail_url video_id = "" ∨ video_id = "" then 0 else 1)

/-- Thumbnail-related state of the window: the current video id, and the
displayed pixbuf (none for the loading placeholder). -/
structure ThumbUI where
  current_video_id : String
  displayed_thumb : Option (ℚ × ℚ)
deriving DecidableEq

/-- Model of GGWindow._on_thumbnail_loaded (gg-shuffle.py lines 799-805): apply
whatever pixbuf is delivered, or keep the placeholder when none is. The
callback receives only the pixbuf: it does not receive, and cannot check, the
video id the request was issued for. -/
def on_thumbnail_loaded (ui : ThumbUI) (pixbuf : Option (ℚ × ℚ)) : ThumbUI :=
  match pixbuf with
  | some pb => { ui with displayed_thumb := some pb }
  | none => { ui with displayed_thumb := none }

/-! Helper lemmas on the splitting functions. -/

theorem isPrefixOf_append_self (l t : List Char) : l.isPrefixOf (l ++ t) = true := by
  induction l with
  | nil => simp
  | cons a as ih => simp [List.isPrefixOf, ih]

theorem containsWatch_cons (c : Char) (rest : List Char) :
    containsWatch (c :: rest) = (watchSepL.isPrefixOf (c :: rest) || containsWatch rest) := rfl

theorem containsWatch_append_sep (l r : List Char) :
    containsWatch (l ++ (watchSepL ++ r)) = true := by
  induction l with
  | nil =>
    rw [List.nil_append]
    show containsWatch ('w' :: 'a' :: 't' :: 'c' :: 'h' :: '?' :: 'v' :: '=' :: r) = true
    rw [containsWatch_cons]
    rw [show watchSepL.isPrefixOf ('w' :: 'a' :: 't' :: 'c' :: 'h' :: '?' :: 'v' :: '=' :: r) = true from
      isPrefixOf_append_self watchSepL r]
    simp
  | cons c cs ih =>
    rw [List.cons_append, containsWatch_cons, ih]
    simp

theorem containsWatch_url (vid : List Char) : containsWatch (watch_url_for vid) = true := by
  rw [watch_url_for, List.append_assoc]
  exact containsWatch_append_sep siteHead vid

theorem splitWatch_url (vid : List Char) :
    splitWatch [] (watch_url_for vid) = siteHead :: splitWatch [] vid := rfl

theorem splitWatch_no_occ (l : List Char) : ∀ acc, containsWatch l = false →
    splitWatch acc l = [acc.reverse ++ l] := by
  induction l with
  | nil => intro acc _; simp [splitWatch]
  | cons c rest ih =>
    intro acc h
    rw [containsWatch] at h
    simp only [Bool.or_eq_false_iff] at h
    obtain ⟨hnp, hrest⟩ := h
    rw [splitWatch.eq_def]
    split
    · rename_i rest2 heq
      exfalso
      rw [show c :: rest = watchSepL ++ rest2 from heq, isPrefixOf_append_self] at hnp
      simp at hnp
    · rename_i c2 rest2 hnomatch hne
      injection hne with he1 he2
      subst he1; subst he2
      rw [ih (c :: acc) hrest]
      simp
    · rename_i heq
      cases heq

theorem splitAmp_no_amp (l : List Char) : ∀ acc, ('&' ∉ l) →
    splitAmp acc l = [acc.reverse ++ l] := by
  induction l with
  | nil => intro acc _; simp [splitAmp]
  | cons c rest ih =>
    intro acc h
    have hc : c ≠ '&' := fun hcc => h (hcc ▸ List.mem_cons_self c rest)
    have hr : '&' ∉ rest := fun hm => h (List.mem_cons_of_mem c hm)
    rw [splitAmp, if_neg hc, ih (c :: acc) hr]
    simp

/-- C10 counterexample: the id "watch?v=" contains no ampersand, yet extracting
the video id back from the watch url built for it yields the empty string, not
the id, because the split on "watch?v=" takes the part after the last
occurrence. -/
theorem extract_video_id_cex :
    ('&' ∉ "watch?v=".toList) ∧
    extract_video_id (watch_url_for "watch?v=".toList) ≠ "watch?v=".toList := by decide

/-- C10 (amended): for every video id containing no ampersand and not itself
containing the substring "watch?v=", extracting the video id from the watch url
the scraper builds for it returns exactly that id; and for every url not
containing "watch?v=", extraction returns the empty string. -/
theorem extract_video_id_spec :
    (∀ vid : List Char, '&' ∉ vid → containsWatch vid = false →
       extract_video_id (watch_url_for vid) = vid) ∧
    (∀ url : List Char, containsWatch url = false → extract_video_id url = []) := by
  constructor
  · intro vid h1 h2
    rw [extract_video_id, if_pos (by rw [containsWatch_url vid]), splitWatch_url,
      splitWatch_no_occ vid [] h2]
    simp [List.getLastD, splitAmp_no_amp vid [] h1]
  · intro url h
    rw [extract_video_id, if_neg (by rw [h]; exact Bool.false_ne_true)]

/-- C10 witness: the round trip at the concrete id "abc123" and the empty
extraction at a url without "watch?v=". -/
theorem extract_video_id_spec_witness :
    extract_video_id (watch_url_for "abc123".toList) = "abc123".toList ∧
    extract_video_id "https://example.com/x".toList = [] :=
  ⟨extract_video_id_spec.1 "abc123".toList (by decide) (by decide),
   extract_video_id_spec.2 "https://example.com/x".toList (by decide)⟩

/-! Helper lemmas on the navigation state. -/

theorem pushHistory_length (h : List String) (v : String) :
    (pushHistory h v).length = min (h.length + 1) 50 := by
  rw [pushHistory]
  by_cases hc : 50 < (h ++ [v]).length
  · rw [if_pos hc]
    simp only [List.length_drop, List.length_append, List.length_singleton] at *
    omega
  · rw [if_neg hc]
    simp only [List.length_append, List.length_singleton] at *
    omega

theorem on_previous_empty (st : NavState) (lk : String → Option Fetched)
    (h : st.previous_video_ids.getLast? = none) :
    on_previous st lk = ⟨st, none, none⟩ := by
  simp only [on_previous, h]

theorem on_previous_found (st : NavState) (lk : String → Option Fetched) (pvid : String)
    (r : Fetched) (h : st.previous_video_ids.getLast? = some pvid) (h2 : lk pvid = some r) :
    on_previous st lk =
      ⟨⟨r.title, r.url, pvid, st.previous_video_ids.dropLast⟩, some r, none⟩ := by
  simp only [on_previous, h, h2]

theorem on_previous_missing (st : NavState) (lk : String → Option Fetched) (pvid : String)
    (h : st.previous_video_ids.getLast? = some pvid) (h2 : lk pvid = none) :
    on_previous st lk =
      ⟨{ st with previous_video_ids := st.previous_video_ids.dropLast }, none, none⟩ := by
  simp only [on_previous, h, h2]

theorem applyOp_history_le (st : NavState) (op : NavOp)
    (h : st.previous_video_ids.length ≤ 50) :
    (applyOp st op).previous_video_ids.length ≤ 50 := by
  cases op with
  | shuffle f =>
    show (load_random_step st f).previous_video_ids.length ≤ 50
    rw [load_random_step]
    dsimp only
    by_cases hc : st.current_video_id ≠ ""
    · rw [if_pos hc, pushHistory_length]
      omega
    · rw [if_neg hc]
      exact h
  | previous lk =>
    show ((on_previous st lk).state).previous_video_ids.length ≤ 50
    cases hl : st.previous_video_ids.getLast? with
    | none =>
      rw [on_previous_empty st lk hl]
      exact h
    | some pvid =>
      cases hlk : lk pvid with
      | none =>
        rw [on_previous_missing st lk pvid hl hlk]
        dsimp only
        rw [List.length_dropLast]
        omega
      | some r =>
        rw [on_previous_found st lk pvid r hl hlk]
        dsimp only
        rw [List.length_dropLast]
        omega

theorem runOps_history_le (ops : List NavOp) : ∀ st : NavState,
    st.previous_video_ids.length ≤ 50 → (runOps st ops).previous_video_ids.length ≤ 50 := by
  induction ops with
  | nil => intro st h; exact h
  | cons op ops ih =>
    intro st h
    show (List.foldl applyOp (applyOp st op) ops).previous_video_ids.length ≤ 50
    exact ih (applyOp st op) (applyOp_history_le st op h)

/-- C2: from the initial state, every sequence of shuffle and previous events
leaves the history with at most 50 entries; and a push that would exceed 50
keeps exactly the most recent 50, dropping the oldest. -/
theorem history_bounded :
    (∀ ops : List NavOp, (runOps initState ops).previous_video_ids.length ≤ 50) ∧
    (∀ (h : List String) (v : String), 50 < h.length + 1 →
       pushHistory h v = (h ++ [v]).drop (h.length + 1 - 50) ∧
       (pushHistory h v).length = 50) := by
  constructor
  · intro ops
    exact runOps_history_le ops initState (by simp [initState])
  · intro h v hgt
    have hlen : (h ++ [v]).length = h.length + 1 := by
      simp
    constructor
    · rw [pushHistory, if_pos (by omega), hlen]
    · rw [pushHistory_length]
      omega

/-- C2 witness: one shuffle from the initial state respects the bound, and a
push onto a history of exactly 50 entries keeps exactly the most recent 50. -/
theorem history_bounded_witness :
    (runOps initState [NavOp.shuffle ⟨"t", "https://www.youtube.com/watch?v=abc", "", 0, 0, ""⟩]).previous_video_ids.length ≤ 50 ∧
    (pushHistory (List.replicate 50 "a") "b" =
       ((List.replicate 50 "a") ++ ["b"]).drop ((List.replicate 50 "a").length + 1 - 50) ∧
     (pushHistory (List.replicate 50 "a") "b").length = 50) :=
  ⟨history_bounded.1 _, history_bounded.2 (List.replicate 50 "a") "b" (by decide)⟩

/-- C4 counterexample: with an empty catalog, a shuffle from a state showing a
video does not leave the state unchanged: the current fields become the
sentinel ("Unknown", empty url, empty id) and the old id is pushed onto the
history. -/
theorem shuffle_empty_catalog_cex :
    load_random_step ⟨"Ep 1", "https://www.youtube.com/watch?v=abc", "abc", []⟩
        (fetch_random [] 0)
      ≠ ⟨"Ep 1", "https://www.youtube.com/watch?v=abc", "abc", []⟩ := by decide

/-- C4 (amended): when the catalog is empty, fetch_random yields the sentinel
record ("Unknown", "", "", 0, 0, "") and the shuffle step does not leave the
state unchanged: it sets the current title to "Unknown", the current url and
video id to empty, and still pushes the old current id onto the history when
that id was non-empty. -/
theorem shuffle_empty_catalog (st : NavState) (pick : Nat) :
    fetch_random [] pick = ⟨"Unknown", "", "", 0, 0, ""⟩ ∧
    load_random_step st (fetch_random [] pick) =
      { current_title := "Unknown", current_url := "", current_video_id := "",
        previous_video_ids :=
          if st.current_video_id ≠ "" then pushHistory st.previous_video_ids st.current_video_id
          else st.previous_video_ids } := ⟨rfl, rfl⟩

/-- C4 witness: the empty-catalog shuffle step at a concrete state whose
current id is non-empty. -/
theorem shuffle_empty_catalog_witness :
    load_random_step ⟨"a", "b", "c", []⟩ (fetch_random [] 3) =
      { current_title := "Unknown", current_url := "", current_video_id := "",
        previous_video_ids :=
          if ("c" : String) ≠ "" then pushHistory [] "c" else [] } :=
  (shuffle_empty_catalog ⟨"a", "b", "c", []⟩ 3).2

/-- C5 counterexample: on a state with non-empty history whose popped id no
longer resolves, on_previous does not set the current id to the popped id. -/
theorem on_previous_cex :
    ((⟨"t", "u", "", ["x"]⟩ : NavState).previous_video_ids ≠ []) ∧
    (on_previous ⟨"t", "u", "", ["x"]⟩ (fun _ => none)).state.current_video_id ≠ "x" := by decide

/-- C5 (amended): on an empty history on_previous returns none and changes
nothing; on a non-empty history it pops exactly one id (the history shrinks by
exactly one) and returns the lookup result for the popped id; the current id is
set to the popped id when the lookup succeeds, while on a failed lookup the
state changes only by the lost history entry. -/
theorem on_previous_spec (st : NavState) (lookup : String → Option Fetched) :
    (st.previous_video_ids = [] → on_previous st lookup = ⟨st, none, none⟩) ∧
    (∀ pvid, st.previous_video_ids.getLast? = some pvid →
       (on_previous st lookup).state.previous_video_ids.length + 1 =
         st.previous_video_ids.length ∧
       (on_previous st lookup).returned = lookup pvid ∧
       (∀ r, lookup pvid = some r → (on_previous st lookup).state.current_video_id = pvid) ∧
       (lookup pvid = none → (on_previous st lookup).state =
          { st with previous_video_ids := st.previous_video_ids.dropLast })) := by
  constructor
  · intro hnil
    exact on_previous_empty st lookup (by rw [hnil]; rfl)
  · intro pvid hl
    have hne : st.previous_video_ids ≠ [] := by
      intro hcon
      rw [hcon] at hl
      cases hl
    have hpos : 0 < st.previous_video_ids.length := List.length_pos.mpr hne
    cases hlk : lookup pvid with
    | none =>
      rw [on_previous_missing st lookup pvid hl hlk]
      refine ⟨?_, rfl, ?_, fun _ => rfl⟩
      · dsimp only
        rw [List.length_dropLast]
        omega
      · intro r hr
        exact Option.noConfusion hr
    | some r =>
      rw [on_previous_found st lookup pvid r hl hlk]
      refine ⟨?_, rfl, fun r2 _ => rfl, ?_⟩
      · dsimp only
        rw [List.length_dropLast]
        omega
      · intro hcon
        exact Option.noConfusion hcon

/-- C5 witness: at a concrete one-entry history whose popped id resolves, the
current id becomes the popped id. -/
theorem on_previous_spec_witness :
    (on_previous ⟨"t", "u", "c", ["x"]⟩
        (fun v => if v = "x" then some ⟨"T", "U", "", 0, 0, ""⟩ else none)).state.current_video_id
      = "x" :=
  ((on_previous_spec ⟨"t", "u", "c", ["x"]⟩
      (fun v => if v = "x" then some ⟨"T", "U", "", 0, 0, ""⟩ else none)).2 "x"
      (by decide)).2.2.1 ⟨"T", "U", "", 0, 0, ""⟩ (by decide)

/-- C7 counterexample: at a concrete failed previous-lookup, the status surfaced
to the presentation layer is none: no error string is reported. -/
theorem on_previous_silent_cex :
    ((⟨"t", "u", "c", ["gone"]⟩ : NavState).previous_video_ids.getLast? = some "gone") ∧
    (on_previous ⟨"t", "u", "c", ["gone"]⟩ (fun _ => none)).status = none := by decide

/-- C7 (amended): when the popped id no longer resolves, the failure is
silently ignored: no error string is pushed to the status bar, the popped id is
not restored (the history is the old history without it), the current id is
unchanged, and nothing is returned. -/
theorem on_previous_lookup_failure (st : NavState) (lookup : String → Option Fetched)
    (pvid : String) (h1 : st.previous_video_ids.getLast? = some pvid)
    (h2 : lookup pvid = none) :
    (on_previous st lookup).status = none ∧
    (on_previous st lookup).state.previous_video_ids = st.previous_video_ids.dropLast ∧
    (on_previous st lookup).state.current_video_id = st.current_video_id ∧
    (on_previous st lookup).returned = none := by
  rw [on_previous_missing st lookup pvid h1 h2]
  exact ⟨rfl, rfl, rfl, rfl⟩

/-- C7 witness: the silent-failure behavior at a concrete state and failing
lookup. -/
theorem on_previous_lookup_failure_witness :
    (on_previous ⟨"t", "u", "c", ["gone"]⟩ (fun _ => none)).status = none ∧
    (on_previous ⟨"t", "u", "c", ["gone"]⟩ (fun _ => none)).state.current_video_id = "c" :=
  ⟨(on_previous_lookup_failure ⟨"t", "u", "c", ["gone"]⟩ (fun _ => none) "gone"
      (by decide) rfl).1,
   (on_previous_lookup_failure ⟨"t", "u", "c", ["gone"]⟩ (fun _ => none) "gone"
      (by decide) rfl).2.2.1⟩

/-! Helper lemmas on the thumbnail cache. -/

theorem is_cache_valid_iff (env : Env) :
    is_cache_valid env = true ↔
      ∃ f, env.cache = some f ∧ env.now - f.mtime < 30 * (24 * 3600) := by
  cases hc : env.cache with
  | none =>
    simp only [is_cache_valid, hc]
    simp
  | some f =>
    simp only [is_cache_valid, hc, decide_eq_true_eq, Option.some.injEq]
    rw [div_lt_iff₀ (by norm_num), CACHE_MAX_AGE_DAYS]
    constructor
    · intro h
      refine ⟨f, rfl, ?_⟩
      exact_mod_cast h
    · rintro ⟨f2, hf2, h⟩
      subst hf2
      exact_mod_cast h

theorem load_cache_hit (vid : String) (env : Env) (f : CacheFile) (w h : ℚ)
    (hv : vid ≠ "") (hc : env.cache = some f) (hval : is_cache_valid env = true)
    (hd : f.content.decodesTo = some (w, h)) :
    load_pixbuf_from_cache vid env = (some (new_from_file_at_scale w h), env) := by
  simp only [load_pixbuf_from_cache, if_neg hv, hc, hval, hd]

theorem load_cache_invalid (vid : String) (env : Env)
    (hv : vid ≠ "") (hval : is_cache_valid env = false) :
    load_pixbuf_from_cache vid env = (none, env) := by
  simp only [load_pixbuf_from_cache, if_neg hv, hval]
  cases env.cache <;> rfl

theorem load_cache_corrupt (vid : String) (env : Env) (f : CacheFile)
    (hv : vid ≠ "") (hc : env.cache = some f) (hval : is_cache_valid env = true)
    (hbad : f.content.decodesTo = none) :
    load_pixbuf_from_cache vid env = (none, { env with cache := none }) := by
  simp only [load_pixbuf_from_cache, if_neg hv, hc, hval, hbad]

theorem download_fetch_fail (vid url : String) (env : Env)
    (hv : vid ≠ "") (hu : url ≠ "") (hf : env.fetchResult = none) :
    download_and_cache_thumbnail vid url env = (none, { env with cache := none }) := by
  simp only [download_and_cache_thumbnail, if_neg (not_or.mpr ⟨hu, hv⟩), hf]

theorem download_decode_fail (vid url : String) (env : Env) (d : ByteData)
    (hv : vid ≠ "") (hu : url ≠ "") (hf : env.fetchResult = some d)
    (hd : d.decodesTo = none) :
    download_and_cache_thumbnail vid url env = (none, { env with cache := none }) := by
  simp only [download_and_cache_thumbnail, if_neg (not_or.mpr ⟨hu, hv⟩), hf, hd]

theorem download_success (vid url : String) (env : Env) (d : ByteData) (w h : ℚ)
    (hv : vid ≠ "") (hu : url ≠ "") (hf : env.fetchResult = some d)
    (hd : d.decodesTo = some (w, h)) :
    download_and_cache_thumbnail vid url env =
      (if 320 < w ∨ 180 < h then some ((320 : ℚ), (180 : ℚ)) else some (w, h),
       { env with cache := some ⟨env.now, d⟩ }) := by
  simp only [download_and_cache_thumbnail, if_neg (not_or.mpr ⟨hu, hv⟩), hf, hd]
  by_cases hs : 320 < w ∨ 180 < h
  · rw [if_pos hs, if_pos hs]
  · rw [if_neg hs, if_neg hs]

theorem thumbnail_url_ne (vid : String) (hv : vid ≠ "") : thumbnail_url vid ≠ "" := by
  rw [thumbnail_url, if_neg hv]
  intro hcon
  have h2 := congrArg String.length hcon
  rw [String.length_append, String.length_append] at h2
  have e1 : "https://img.youtube.com/vi/".length = 27 := rfl
  have e2 : "/hqdefault.jpg".length = 14 := rfl
  have e3 : "".length = 0 := rfl
  omega

theorem worker_hit (vid : String) (env : Env) (pb : ℚ × ℚ) (env1 : Env)
    (hl : load_pixbuf_from_cache vid env = (some pb, env1)) :
    load_thumbnail_worker vid env = (some pb, env1, 0) := by
  rw [load_thumbnail_worker, hl]

theorem worker_miss (vid : String) (env : Env) (env1 : Env)
    (hv : vid ≠ "") (hl : load_pixbuf_from_cache vid env = (none, env1)) :
    load_thumbnail_worker vid env =
      ((download_and_cache_thumbnail vid (thumbnail_url vid) env1).1,
       (download_and_cache_thumbnail vid (thumbnail_url vid) env1).2, 1) := by
  rw [load_thumbnail_worker, hl]
  dsimp only
  rw [if_neg (not_or.mpr ⟨thumbnail_url_ne vid hv, hv⟩)]

/-- C6: a cache entry is valid exactly when the file exists and its age is
strictly below 30 days; a valid and decodable entry is served with zero network
fetches; an entry aged 30 days or more is a miss (the cache check leaves the
file in place) that triggers exactly one network fetch, and a successful
re-fetch overwrites the file rather than deleting it. -/
theorem cache_expiry_policy :
    (∀ env : Env, is_cache_valid env = true ↔
       ∃ f, env.cache = some f ∧ env.now - f.mtime < 30 * (24 * 3600)) ∧
    (∀ (vid : String) (env : Env) (f : CacheFile) (w h : ℚ),
       vid ≠ "" → env.cache = some f → env.now - f.mtime < 30 * (24 * 3600) →
       f.content.decodesTo = some (w, h) →
       load_thumbnail_worker vid env = (some (new_from_file_at_scale w h), env, 0)) ∧
    (∀ (vid : String) (env : Env) (f : CacheFile),
       vid ≠ "" → env.cache = some f → 30 * (24 * 3600) ≤ env.now - f.mtime →
       load_pixbuf_from_cache vid env = (none, env) ∧
       (load_thumbnail_worker vid env).2.2 = 1 ∧
       ∀ d : ByteData, env.fetchResult = some d → d.decodesTo ≠ none →
         (load_thumbnail_worker vid env).2.1.cache = some ⟨env.now, d⟩) := by
  refine ⟨is_cache_valid_iff, ?_, ?_⟩
  · intro vid env f w h hv hc hage hd
    have hval : is_cache_valid env = true := (is_cache_valid_iff env).mpr ⟨f, hc, hage⟩
    exact worker_hit vid env _ env (load_cache_hit vid env f w h hv hc hval hd)
  · intro vid env f hv hc hage
    have hval : is_cache_valid env = false := by
      cases hb : is_cache_valid env with
      | false => rfl
      | true =>
        obtain ⟨f2, hf2, hlt⟩ := (is_cache_valid_iff env).mp hb
        rw [hc] at hf2
        injection hf2 with hf2
        subst hf2
        omega
    have hmiss := load_cache_invalid vid env hv hval
    have hw := worker_miss vid env env hv hmiss
    refine ⟨hmiss, by rw [hw], ?_⟩
    intro d hfr hdec
    rw [hw]
    cases hdd : d.decodesTo with
    | none => exact absurd hdd hdec
    | some p =>
      rw [download_success vid (thumbnail_url vid) env d p.1 p.2 hv
        (thumbnail_url_ne vid hv) hfr (by rw [hdd])]

/-- C6 witness: a fresh decodable entry (age 100 seconds) is served from cache
with zero fetches, and an entry aged exactly 30 days is a miss that leaves the
file in place and triggers one fetch. -/
theorem cache_expiry_policy_witness :
    load_thumbnail_worker "abc" ⟨some ⟨0, ⟨some (480, 360)⟩⟩, 100, none⟩ =
      (some (new_from_file_at_scale 480 360), ⟨some ⟨0, ⟨some (480, 360)⟩⟩, 100, none⟩, 0) ∧
    load_pixbuf_from_cache "abc" ⟨some ⟨0, ⟨some (480, 360)⟩⟩, 2592000, some ⟨some (480, 360)⟩⟩ =
      (none, ⟨some ⟨0, ⟨some (480, 360)⟩⟩, 2592000, some ⟨some (480, 360)⟩⟩) ∧
    (load_thumbnail_worker "abc"
       ⟨some ⟨0, ⟨some (480, 360)⟩⟩, 2592000, some ⟨some (480, 360)⟩⟩).2.2 = 1 :=
  ⟨cache_expiry_policy.2.1 "abc" ⟨some ⟨0, ⟨some (480, 360)⟩⟩, 100, none⟩
     ⟨0, ⟨some (480, 360)⟩⟩ 480 360 (by decide) rfl (by decide) rfl,
   (cache_expiry_policy.2.2 "abc" ⟨some ⟨0, ⟨some (480, 360)⟩⟩, 2592000, some ⟨some (480, 360)⟩⟩
     ⟨0, ⟨some (480, 360)⟩⟩ (by decide) rfl (by decide)).1,
   (cache_expiry_policy.2.2 "abc" ⟨some ⟨0, ⟨some (480, 360)⟩⟩, 2592000, some ⟨some (480, 360)⟩⟩
     ⟨0, ⟨some (480, 360)⟩⟩ (by decide) rfl (by decide)).2.1⟩

/-- C8: a cache file of valid age that fails to decode is deleted by the cache
check, and the resolution then proceeds to a network fetch of the thumbnail
url on the environment without the corrupt file, rather than returning the
corrupt data or giving up. -/
theorem corrupt_cache_refetch (vid : String) (env : Env) (f : CacheFile)
    (hv : vid ≠ "") (hc : env.cache = some f)
    (hage : env.now - f.mtime < 30 * (24 * 3600)) (hbad : f.content.decodesTo = none) :
    load_pixbuf_from_cache vid env = (none, { env with cache := none }) ∧
    load_thumbnail_worker vid env =
      ((download_and_cache_thumbnail vid (thumbnail_url vid) { env with cache := none }).1,
       (download_and_cache_thumbnail vid (thumbnail_url vid) { env with cache := none }).2,
       1) := by
  have hval : is_cache_valid env = true := (is_cache_valid_iff env).mpr ⟨f, hc, hage⟩
  have hmiss := load_cache_corrupt vid env f hv hc hval hbad
  exact ⟨hmiss, worker_miss vid env _ hv hmiss⟩

/-- C8 witness: a concrete valid-age corrupt entry is deleted and one network
fetch is performed. -/
theorem corrupt_cache_refetch_witness :
    load_pixbuf_from_cache "abc" ⟨some ⟨0, ⟨none⟩⟩, 100, some ⟨some (480, 360)⟩⟩ =
      (none, ⟨none, 100, some ⟨some (480, 360)⟩⟩) ∧
    (load_thumbnail_worker "abc" ⟨some ⟨0, ⟨none⟩⟩, 100, some ⟨some (480, 360)⟩⟩).2.2 = 1 :=
  ⟨(corrupt_cache_refetch "abc" ⟨some ⟨0, ⟨none⟩⟩, 100, some ⟨some (480, 360)⟩⟩
      ⟨0, ⟨none⟩⟩ (by decide) rfl (by decide) rfl).1,
   by rw [(corrupt_cache_refetch "abc" ⟨some ⟨0, ⟨none⟩⟩, 100, some ⟨some (480, 360)⟩⟩
      ⟨0, ⟨none⟩⟩ (by decide) rfl (by decide) rfl).2]⟩

/-- C9: on a network fetch failure or a post-fetch decode failure, the cache
file for the key is deleted and the resolution returns none; in the model every
branch of download_and_cache_thumbnail returns a value, mirroring that the
Python except-branch converts every exception to None. -/
theorem fetch_failure_cleanup (vid url : String) (env : Env)
    (hv : vid ≠ "") (hu : url ≠ "")
    (hfail : env.fetchResult = none ∨ ∃ d, env.fetchResult = some d ∧ d.decodesTo = none) :
    download_and_cache_thumbnail vid url env = (none, { env with cache := none }) := by
  rcases hfail with hf | ⟨d, hf, hd⟩
  · exact download_fetch_fail vid url env hv hu hf
  · exact download_decode_fail vid url env d hv hu hf hd

/-- C9 witness: a concrete fetch failure deletes the cache file and returns
none. -/
theorem fetch_failure_cleanup_witness :
    download_and_cache_thumbnail "abc" "u" ⟨some ⟨0, ⟨some (1, 1)⟩⟩, 5, none⟩ =
      (none, ⟨none, 5, none⟩) :=
  fetch_failure_cleanup "abc" "u" ⟨some ⟨0, ⟨some (1, 1)⟩⟩, 5, none⟩
    (by decide) (by decide) (Or.inl rfl)

theorem new_scale_fits (w h : ℚ) (hw : 0 < w) (hh : 0 < h) :
    (new_from_file_at_scale w h).1 * h = (new_from_file_at_scale w h).2 * w ∧
    (new_from_file_at_scale w h).1 ≤ 320 ∧ (new_from_file_at_scale w h).2 ≤ 180 := by
  rw [new_from_file_at_scale]
  refine ⟨by ring, ?_, ?_⟩
  · have h1 : min (320 / w) (180 / h) ≤ 320 / w := min_le_left _ _
    have h2 : w * min (320 / w) (180 / h) ≤ w * (320 / w) :=
      mul_le_mul_of_nonneg_left h1 hw.le
    have h3 : w * (320 / w) = 320 := by field_simp
    rw [h3] at h2
    exact h2
  · have h1 : min (320 / w) (180 / h) ≤ 180 / h := min_le_right _ _
    have h2 : h * min (320 / w) (180 / h) ≤ h * (180 / h) :=
      mul_le_mul_of_nonneg_left h1 hh.le
    have h3 : h * (180 / h) = 180 := by field_simp
    rw [h3] at h2
    exact h2

theorem load_cache_success_shape (vid : String) (env : Env) (pb : ℚ × ℚ) (env1 : Env)
    (hl : load_pixbuf_from_cache vid env = (some pb, env1)) :
    ∃ f w h, env.cache = some f ∧ f.content.decodesTo = some (w, h) ∧
      pb = new_from_file_at_scale w h := by
  by_cases hv : vid = ""
  · simp only [load_pixbuf_from_cache, if_pos hv] at hl
    exact absurd hl (by simp)
  · cases hc : env.cache with
    | none =>
      have heq : load_pixbuf_from_cache vid env = (none, env) := by
        simp only [load_pixbuf_from_cache, if_neg hv, hc]
      rw [heq] at hl
      simp at hl
    | some f =>
      cases hb : is_cache_valid env with
      | false =>
        rw [load_cache_invalid vid env hv hb] at hl
        simp at hl
      | true =>
        cases hd : f.content.decodesTo with
        | none =>
          rw [load_cache_corrupt vid env f hv hc hb hd] at hl
          simp at hl
        | some p =>
          obtain ⟨w, h2⟩ := p
          rw [load_cache_hit vid env f w h2 hv hc hb hd] at hl
          injection hl with ha hb2
          injection ha with ha
          exact ⟨f, w, h2, rfl, hd, ha.symm⟩

theorem download_success_fits (vid url : String) (env : Env) (pb : ℚ × ℚ)
    (hd : (download_and_cache_thumbnail vid url env).1 = some pb) :
    pb.1 ≤ 320 ∧ pb.2 ≤ 180 := by
  by_cases hg : url = "" ∨ vid = ""
  · rw [download_and_cache_thumbnail, if_pos hg] at hd
    simp at hd
  · push_neg at hg
    cases hf : env.fetchResult with
    | none =>
      rw [download_fetch_fail vid url env hg.2 hg.1 hf] at hd
      simp at hd
    | some d =>
      cases hdd : d.decodesTo with
      | none =>
        rw [download_decode_fail vid url env d hg.2 hg.1 hf hdd] at hd
        simp at hd
      | some p =>
        obtain ⟨w, h⟩ := p
        rw [download_success vid url env d w h hg.2 hg.1 hf hdd] at hd
        dsimp only at hd
        by_cases hs : 320 < w ∨ 180 < h
        · rw [if_pos hs] at hd
          injection hd with hd
          rw [← hd]
          exact ⟨by norm_num, by norm_num⟩
        · rw [if_neg hs] at hd
          push_neg at hs
          injection hd with hd
          rw [← hd]
          exact ⟨hs.1, hs.2⟩

/-- C1 counterexample: the network path decodes a 480 by 360 image (as the
hqdefault.jpg thumbnails are), whose width exceeds 320, and returns it scaled
to exactly 320 by 180, which does not preserve the 4:3 aspect ratio: an
aspect-preserving result (w2, h2) would satisfy w2 * 360 = h2 * 480, but
320 * 360 is not 180 * 480. -/
theorem network_aspect_cex :
    ((320 : ℚ) < 480 ∨ (180 : ℚ) < 360) ∧
    (download_and_cache_thumbnail "abc" "https://img.youtube.com/vi/abc/hqdefault.jpg"
        ⟨none, 0, some ⟨some (480, 360)⟩⟩).1 = some (320, 180) ∧
    ¬ ((320 : ℚ) * 360 = 180 * 480) := by
  refine ⟨by decide, by decide, by norm_num⟩

/-- C1 (amended): every thumbnail resolution that succeeds returns an image
fitting within 320 by 180 (given that decoders yield positive dimensions). The
cache path scales to fit while preserving the aspect ratio; the network path
returns an oversized decoded image scaled to exactly 320 by 180, which in
general does not preserve the aspect ratio. -/
theorem thumbnail_fits (vid : String) (env : Env) (pb : ℚ × ℚ) (env2 : Env) (n : Nat)
    (hwf : ∀ f, env.cache = some f → ∀ w h, f.content.decodesTo = some (w, h) → 0 < w ∧ 0 < h)
    (hres : load_thumbnail_worker vid env = (some pb, env2, n)) :
    (pb.1 ≤ 320 ∧ pb.2 ≤ 180) ∧
    (∀ w h : ℚ, 0 < w → 0 < h →
       (new_from_file_at_scale w h).1 * h = (new_from_file_at_scale w h).2 * w ∧
       (new_from_file_at_scale w h).1 ≤ 320 ∧ (new_from_file_at_scale w h).2 ≤ 180) ∧
    (∀ (w h : ℚ) (vid2 url : String) (env3 : Env) (d : ByteData),
       vid2 ≠ "" → url ≠ "" → env3.fetchResult = some d → d.decodesTo = some (w, h) →
       (320 < w ∨ 180 < h) →
       (download_and_cache_thumbnail vid2 url env3).1 = some ((320 : ℚ), (180 : ℚ))) := by
  refine ⟨?_, fun w h hw hh => new_scale_fits w h hw hh, ?_⟩
  · rcases hl : load_pixbuf_from_cache vid env with ⟨p1, e1⟩
    cases p1 with
    | some pb1 =>
      rw [worker_hit vid env pb1 e1 hl] at hres
      injection hres with ha hb
      injection ha with ha
      obtain ⟨f, w, h, hc, hd, hpb⟩ := load_cache_success_shape vid env pb1 e1 hl
      have pos := hwf f hc w h hd
      have fits := new_scale_fits w h pos.1 pos.2
      rw [ha] at hpb
      rw [hpb]
      exact ⟨fits.2.1, fits.2.2⟩
    | none =>
      by_cases hv : vid = ""
      · have hdl : download_and_cache_thumbnail vid (thumbnail_url vid) e1 = (none, e1) := by
          rw [download_and_cache_thumbnail, if_pos (Or.inr hv)]
        rw [load_thumbnail_worker, hl] at hres
        dsimp only at hres
        rw [hdl] at hres
        simp at hres
      · rw [worker_miss vid env e1 hv hl] at hres
        have h1 : (download_and_cache_thumbnail vid (thumbnail_url vid) e1).1 = some pb :=
          congrArg Prod.fst hres
        exact download_success_fits vid (thumbnail_url vid) e1 pb h1
  · intro w h vid2 url env3 d hv2 hu2 hf hd hs
    rw [download_success vid2 url env3 d w h hv2 hu2 hf hd]
    dsimp only
    rw [if_pos hs]

/-- C1 witness: a concrete successful resolution (network path on a 480 by 360
decode) fits within 320 by 180. -/
theorem thumbnail_fits_witness :
    (((320 : ℚ), (180 : ℚ)).1 ≤ 320 ∧ ((320 : ℚ), (180 : ℚ)).2 ≤ 180) :=
  (thumbnail_fits "abc" ⟨none, 0, some ⟨some (480, 360)⟩⟩ ((320 : ℚ), (180 : ℚ))
     ⟨some ⟨0, ⟨some (480, 360)⟩⟩, 0, some ⟨some (480, 360)⟩⟩ 1
     (fun f hf => Option.noConfusion hf) (by decide)).1

/-- C3: the thumbnail-loaded callback applies whatever pixbuf is delivered to
the displayed thumbnail even when the currently displayed item is another
video: it receives only the pixbuf, performs no check that the result still
belongs to the current item, and here applies a result raised for video "A"
while the current video id is "B". -/
theorem stale_thumbnail_applied :
    on_thumbnail_loaded ⟨"B", none⟩ (some ((320 : ℚ), (180 : ℚ))) =
      ⟨"B", some ((320 : ℚ), (180 : ℚ))⟩ := rfl

end GGShuffle
